import Mathlib

/-!
Verification development for the voice-driven coding assistant pipeline
(`langgraph_pipeline.py` and the agents it drives).  The Python code is
shallowly embedded: every node of the LangGraph workflow becomes a pure
function from the pipeline state (plus the outcome of its external
capability calls, passed in as explicit arguments) to a new state together
with a list of observable effects (TTS utterances, file writes).
-/

namespace MyPeer

/-! ## Python string primitives -/

/-- `hasSubList p l` decides whether `p` occurs as a contiguous sublist of `l`. -/
def hasSubList (p : List Char) : List Char → Bool
  | [] => p.isEmpty
  | c :: t => p.isPrefixOf (c :: t) || hasSubList p t

/-- Mirrors the Python expression `needle in haystack` on strings
(substring containment). -/
def pyIn (needle haystack : String) : Bool :=
  hasSubList needle.data haystack.data

/-- Mirrors `any(word in text for word in words)`. -/
def anyIn (words : List String) (text : String) : Bool :=
  words.any (fun w => pyIn w text)

/-- Mirrors Python `str.lower()` (ASCII is all the source ever feeds it). -/
def lower (s : String) : String := String.mk (s.data.map Char.toLower)

/-- Mirrors Python `str.strip()` with no argument: drop leading and
trailing whitespace. -/
def pyStrip (s : String) : String :=
  String.mk (((s.data.dropWhile Char.isWhitespace).reverse.dropWhile
    Char.isWhitespace).reverse)

/-- Splits a character list at whitespace. -/
def splitWsAux (cur : List Char) : List Char → List (List Char)
  | [] => [cur.reverse]
  | c :: rest =>
    if c.isWhitespace then cur.reverse :: splitWsAux [] rest
    else splitWsAux (c :: cur) rest

/-- Mirrors Python `str.split()` with no argument: split on whitespace and
drop empty fragments. -/
def pyWords (s : String) : List String :=
  ((splitWsAux [] s.data).map String.mk).filter (fun w => w ≠ "")

/-! ## Pipeline state (`VoiceCodingState` TypedDict) -/

/-- The `VoiceCodingState` TypedDict of `langgraph_pipeline.py`. -/
structure VoiceCodingState where
  wake_word_detected : Bool
  voice_input : String
  transcribed_text : String
  user_confirmed : Bool
  confirmation_status : String
  confirmation_spoken : Bool
  current_step : String
  pipeline_status : String
  error_message : String
  user_intent : String
  generated_todos : List String
  todos_completed : Bool
  generated_code : String
  code_file_path : String
  code_explanation : String
  code_review : String
  review_score : Int
  user_feedback : String
  feedback_processed : Bool
  iteration_count : Nat
  max_iterations : Nat
  final_response : String
  interaction_count : Nat
  current_todo_index : Nat
deriving DecidableEq, Repr

/-- The initial state built in `run_pipeline` / `start_continuous_session`. -/
def initial_state : VoiceCodingState where
  wake_word_detected := false
  voice_input := ""
  transcribed_text := ""
  user_confirmed := false
  confirmation_status := ""
  confirmation_spoken := false
  current_step := "wake_word_detection"
  pipeline_status := "active"
  error_message := ""
  user_intent := ""
  generated_todos := []
  todos_completed := false
  generated_code := ""
  code_file_path := ""
  code_explanation := ""
  code_review := ""
  review_score := 0
  user_feedback := ""
  feedback_processed := false
  iteration_count := 0
  max_iterations := 3
  final_response := ""
  interaction_count := 0
  current_todo_index := 0

/-- Observable side effects of a node: TTS output and file writes. -/
inductive Effect where
  | speak (msg : String)
  | write (path : String) (content : String)
deriving DecidableEq, Repr

/-- LangGraph's `END` sentinel. -/
def END : String := "__end__"

/-! ## `_summarize_user_request` -/

/-- Default-branch summarization of `_summarize_user_request`
(`words = request.split()` followed by length-based truncation). -/
def summarize_default (request : String) : String :=
  let words := pyWords request
  if words.length > 8 then
    String.intercalate " " (words.take 4) ++ "... " ++
      words.getD (words.length - 2) "" ++ " " ++ words.getD (words.length - 1) ""
  else if words.length > 5 then
    String.intercalate " " (words.take 3) ++ "... " ++ words.getD (words.length - 1) ""
  else
    request

/-- `_summarize_user_request` from `langgraph_pipeline.py`. -/
def summarize_user_request (request : String) : String :=
  let request_lower := lower request
  if pyIn "write" request_lower && pyIn "function" request_lower then
    if pyIn "hello world" request_lower then "write a function to print hello world"
    else if pyIn "print" request_lower then "write a function that prints something"
    else "write a function"
  else if pyIn "create" request_lower && pyIn "function" request_lower then
    if pyIn "hello world" request_lower then "create a hello world function"
    else if pyIn "print" request_lower then "create a function that prints something"
    else "create a function"
  else if pyIn "print" request_lower && pyIn "hello world" request_lower then
    "create a function to print hello world"
  else if pyIn "create" request_lower && pyIn "class" request_lower then
    "create a class"
  else if pyIn "create" request_lower && pyIn "api" request_lower then
    "create an API"
  else if pyIn "build" request_lower then "build something"
  else if pyIn "make" request_lower then "make something"
  else if pyIn "generate" request_lower then "generate some code"
  else if pyIn "hello world" request_lower then "create a hello world program"
  else if pyIn "print" request_lower then "create something that prints"
  else summarize_default request

/-! ## `_confirmation_node`

The TTS and STT agents are opaque capability ports; the captured
confirmation reply is passed in as the `response` argument (the empty
string models `auto_record_speech` capturing nothing).  The Python
`try/except` wrapper is not modelled because every capability outcome is
already an explicit argument of the embedding. -/

/-- The confirmation prompt `f"Um, so you want me to {summary}, right?"`. -/
def confirmation_msg (transcribed_text : String) : String :=
  "Um, so you want me to " ++ summarize_user_request transcribed_text ++ ", right?"

/-- Keyword set of the affirmative branch of `_confirmation_node`. -/
def confirmation_affirm_words : List String :=
  ["yes", "correct", "right", "yeah", "yep", "ok", "okay"]

/-- `_confirmation_node` from `langgraph_pipeline.py`. -/
def confirmation_node (state : VoiceCodingState) (response : String) :
    VoiceCodingState × List Effect :=
  if state.transcribed_text ≠ "" then
    let promptEffects : List Effect :=
      if !state.confirmation_spoken then
        [Effect.speak (confirmation_msg state.transcribed_text)]
      else []
    let state := { state with confirmation_spoken := true }
    if response ≠ "" then
      let confirmation_lower := pyStrip (lower response)
      if anyIn confirmation_affirm_words confirmation_lower then
        ({ state with user_confirmed := true, confirmation_status := "confirmed",
                      current_step := "confirmation" },
         promptEffects ++ [Effect.speak "Great! Um, let me get started on that for you."])
      else
        ({ state with user_confirmed := false, confirmation_status := "re_record",
                      current_step := "confirmation" },
         promptEffects ++
           [Effect.speak "Oh, um, I\x27m sorry about that. Could you please say it again?"])
    else
      ({ state with user_confirmed := true, confirmation_status := "confirmed",
                    current_step := "confirmation" },
       promptEffects ++ [Effect.speak "Um, I\x27ll assume that\x27s correct and continue."])
  else
    ({ state with error_message := "No transcribed text to confirm",
                  pipeline_status := "error" }, [])

/-- `_voice_input_node`: resets the spoken flag, then records (the captured
text is the `voice_input` argument; empty models no speech detected). -/
def voice_input_node (state : VoiceCodingState) (voice_input : String) :
    VoiceCodingState :=
  let state := { state with confirmation_spoken := false }
  if voice_input ≠ "" then
    { state with voice_input := voice_input, current_step := "voice_input" }
  else
    { state with error_message := "No voice input detected", pipeline_status := "error" }

/-! ## Routing functions -/

/-- `_should_continue_after_confirmation_simple`. -/
def should_continue_after_confirmation_simple (state : VoiceCodingState) : String :=
  if state.confirmation_status = "confirmed" then "intent_classification"
  else if state.confirmation_status = "re_record" then "voice_input"
  else END

/-- `_should_continue_after_user_feedback`. -/
def should_continue_after_user_feedback (state : VoiceCodingState) : String :=
  if state.feedback_processed then "code_iteration" else "response_generation"

/-- `_should_continue_after_code_iteration`. -/
def should_continue_after_code_iteration (state : VoiceCodingState) : String :=
  if state.iteration_count < state.max_iterations then "user_feedback"
  else "response_generation"

/-- `_should_continue_after_response_generation`. -/
def should_continue_after_response_generation (state : VoiceCodingState) : String :=
  if state.pipeline_status = "active" then "intent_classification" else END

/-! ## `_response_generation_node` -/

/-- `_generate_coding_response`. -/
def generate_coding_response (_code : String) (todos : List String) : String :=
  "I\x27ve generated the code with " ++ toString todos.length ++
    " tasks implemented. The code has been saved and is ready for use."

/-- `_generate_explanation_response`. -/
def generate_explanation_response (explanation : String) : String :=
  "Here\x27s the explanation: " ++ explanation

/-- `_generate_review_response`. -/
def generate_review_response (review : String) : String :=
  "Here\x27s my code review: " ++ review

/-- Keyword set of the wants-more-help branch of `_response_generation_node`. -/
def help_yes_words : List String :=
  ["yes", "yeah", "yep", "sure", "ok", "okay", "help", "more", "another", "continue"]

/-- Keyword set of the no-more-help branch of `_response_generation_node`. -/
def help_no_words : List String :=
  ["no", "don\x27t", "dont", "nothing", "none", "all set", "good", "fine", "thanks",
   "thank you"]

/-- `_response_generation_node` from `langgraph_pipeline.py`.  The captured
reply to "Is there anything else..." is the `help_response` argument (empty
string models silence).  The `try/except` wrapper is not modelled since all
capability outcomes are explicit arguments. -/
def response_generation_node (state : VoiceCodingState) (help_response : String) :
    VoiceCodingState × List Effect :=
  let response :=
    if state.user_intent = "coding" then
      generate_coding_response state.generated_code state.generated_todos
    else if state.user_intent = "explanation" then
      generate_explanation_response state.code_explanation
    else if state.user_intent = "review" then
      generate_review_response state.code_review
    else "Task completed successfully!"
  let state := { state with final_response := response, current_step := "response_generation" }
  let eff := [Effect.speak response,
              Effect.speak "Is there anything else you\x27d like me to help you with?"]
  if help_response ≠ "" then
    let help_lower := pyStrip (lower help_response)
    if anyIn help_yes_words help_lower then
      ({ state with
          pipeline_status := "active"
          current_step := "intent_classification"
          user_confirmed := false
          confirmation_status := ""
          confirmation_spoken := false
          user_intent := ""
          generated_todos := []
          todos_completed := false
          generated_code := ""
          code_file_path := ""
          code_explanation := ""
          code_review := ""
          review_score := 0
          user_feedback := ""
          feedback_processed := false
          iteration_count := 0
          final_response := ""
          current_todo_index := 0
          transcribed_text := "" },
       eff ++ [Effect.speak "Great! What would you like me to help you with next?"])
    else if anyIn help_no_words help_lower then
      ({ state with
          pipeline_status := "completed"
          wake_word_detected := false
          voice_input := ""
          transcribed_text := ""
          user_confirmed := false
          confirmation_status := ""
          confirmation_spoken := false
          current_step := "wake_word_detection"
          user_intent := ""
          generated_todos := []
          todos_completed := false
          generated_code := ""
          code_file_path := ""
          code_explanation := ""
          code_review := ""
          review_score := 0
          user_feedback := ""
          feedback_processed := false
          iteration_count := 0
          final_response := ""
          current_todo_index := 0 },
       eff ++ [Effect.speak
         "Perfect! I\x27m here whenever you need help. Just say \x27Blueberry\x27 to start a new session."])
    else
      ({ state with
          wake_word_detected := false
          voice_input := ""
          transcribed_text := ""
          user_confirmed := false
          confirmation_status := ""
          confirmation_spoken := false
          current_step := "wake_word_detection"
          pipeline_status := "active"
          user_intent := ""
          generated_todos := []
          todos_completed := false
          generated_code := ""
          code_file_path := ""
          code_explanation := ""
          code_review := ""
          review_score := 0
          user_feedback := ""
          feedback_processed := false
          iteration_count := 0
          final_response := ""
          current_todo_index := 0 },
       eff ++ [Effect.speak
         "Perfect! I\x27m here whenever you need help. Just say \x27Blueberry\x27 to start a new session."])
  else
    ({ state with
        wake_word_detected := false
        voice_input := ""
        transcribed_text := ""
        user_confirmed := false
        confirmation_status := ""
        confirmation_spoken := false
        current_step := "wake_word_detection"
        pipeline_status := "active"
        user_intent := ""
        generated_todos := []
        todos_completed := false
        generated_code := ""
        code_file_path := ""
        code_explanation := ""
        code_review := ""
        review_score := 0
        user_feedback := ""
        feedback_processed := false
        iteration_count := 0
        final_response := ""
        current_todo_index := 0 },
     eff ++ [Effect.speak
       "I didn\x27t hear anything. I\x27m here whenever you need help. Just say \x27Blueberry\x27 to start a new session."])

/-! ## `_code_iteration_node` -/

/-- `_improve_code_with_feedback`. -/
def improve_code_with_feedback (code feedback : String) : String :=
  "# Improved based on feedback: " ++ feedback ++ "\n" ++ code

/-- `_code_iteration_node` from `langgraph_pipeline.py`.  The file write of
the improved code is emitted as an `Effect.write`.  (The Python
`state.get("code_file_path", ...)` default is dead because the key is
always initialised, so the field itself is used.) -/
def code_iteration_node (state : VoiceCodingState) : VoiceCodingState × List Effect :=
  if state.iteration_count ≥ state.max_iterations then
    ({ state with current_step := "code_iteration" }, [])
  else
    let improved_code := improve_code_with_feedback state.generated_code state.user_feedback
    ({ state with
        generated_code := improved_code
        iteration_count := state.iteration_count + 1
        current_step := "code_iteration" },
     [Effect.write state.code_file_path improved_code])

/-! ## CodeRabbit review (`coderabbit_agent.py` and `_code_review_node`) -/

/-- `CODERABBIT_START_MESSAGE` from `prompts.py`. -/
def CODERABBIT_START_MESSAGE : String :=
  "Um, let me review your code using CodeRabbit. This might take a moment..."

/-- `CODERABBIT_RATE_LIMIT_MESSAGE` from `prompts.py`. -/
def CODERABBIT_RATE_LIMIT_MESSAGE : String :=
  "Um, sorry, I\x27ve hit the rate limit. Hmm, please wait a few minutes and try again."

/-- `CODERABBIT_TIMEOUT_MESSAGE` from `prompts.py`. -/
def CODERABBIT_TIMEOUT_MESSAGE : String :=
  "Um, the review is taking longer than expected. Hmm, please try again in a moment."

/-- Result dictionary of `CodeRabbitAgent.review_current_directory`. -/
structure ReviewResult where
  review_output : String
  summary : String
  status : String
deriving DecidableEq, Repr

/-- Outcome of the `subprocess.run` call on the CodeRabbit CLI. -/
inductive SubprocessOutcome where
  | finished (returncode : Int) (stdout stderr : String)
  | timeoutExpired
  | raised (msg : String)
deriving DecidableEq, Repr

/-- `CodeRabbitAgent.review_current_directory`.  The CLI invocation outcome
and the GPT-4 summarizer (itself an opaque capability) are arguments. -/
def review_current_directory (run : SubprocessOutcome)
    (summarize_with_gpt4 : String → String) : ReviewResult :=
  match run with
  | .finished returncode stdout stderr =>
    if returncode = 0 then
      { review_output := stdout, summary := summarize_with_gpt4 stdout,
        status := "completed" }
    else if pyIn "Rate limit exceeded" stderr then
      { review_output := "Rate limit exceeded error", summary := "Rate limit exceeded error",
        status := "rate_limited" }
    else
      { review_output := stderr, summary := "CodeRabbit review failed", status := "error" }
  | .timeoutExpired =>
    { review_output := "Rate limit exceeded error", summary := "Rate limit exceeded error",
      status := "timeout" }
  | .raised _ =>
    { review_output := "Rate limit exceeded error", summary := "Rate limit exceeded error",
      status := "error" }

/-- `_code_review_node` from `langgraph_pipeline.py`.  (The Python also
stores a `review_summary` key that is not part of the `VoiceCodingState`
TypedDict; that stray key is not modelled.) -/
def code_review_node (state : VoiceCodingState) (review_result : ReviewResult) :
    VoiceCodingState × List Effect :=
  let eff := [Effect.speak CODERABBIT_START_MESSAGE]
  if review_result.status = "completed" then
    ({ state with
        code_review := review_result.review_output
        current_step := "code_review"
        pipeline_status := "completed" },
     eff ++ [Effect.speak review_result.summary])
  else
    ({ state with current_step := "code_review", pipeline_status := "error" },
     eff ++ [Effect.speak "Rate limit exceeded error"])

/-! ## `_generate_todos_from_request` -/

/-- `_generate_todos_from_request` from `langgraph_pipeline.py`. -/
def generate_todos_from_request (request : String) : List String :=
  let request_lower := lower request
  ["Create a new file with appropriate name and extension"] ++
    (if pyIn "function" request_lower then
      ["Create the main function with proper parameters", "Implement the function logic"]
    else if pyIn "class" request_lower then
      ["Define the class structure and constructor", "Implement class methods"]
    else if anyIn ["api", "endpoint", "rest", "http"] request_lower then
      ["Set up the API framework", "Create the endpoint structure"]
    else if anyIn ["database", "model", "schema", "table"] request_lower then
      ["Design the database schema", "Create the database model"]
    else if pyIn "test" request_lower then
      ["Create test cases", "Implement test logic"]
    else if anyIn ["web", "html", "css", "frontend"] request_lower then
      ["Create HTML structure", "Add CSS styling"]
    else
      ["Implement the requested functionality", "Add proper documentation and comments"])

/-! ## `_get_file_extension` -/

/-- The `extensions` dictionary of `_get_file_extension`. -/
def extensions : List (String × String) :=
  [("python", "py"), ("javascript", "js"), ("typescript", "ts"), ("java", "java"),
   ("c++", "cpp"), ("cpp", "cpp"), ("c#", "cs"), ("csharp", "cs"), ("go", "go"),
   ("rust", "rs"), ("php", "php"), ("ruby", "rb"), ("swift", "swift"), ("kotlin", "kt"),
   ("html", "html"), ("css", "css"), ("sql", "sql"), ("bash", "sh"),
   ("powershell", "ps1"), ("yaml", "yml"), ("json", "json"), ("xml", "xml")]

/-- `_get_file_extension`: `extensions.get(language, "txt")`. -/
def get_file_extension (language : String) : String :=
  (extensions.lookup language).getD "txt"

/-! ## Code generators (`_generate_*_code`) -/

/-- `_generate_python_code`. -/
def generate_python_code (request : String) (todos : List String) (task_type : String) :
    String :=
  let todo_text := String.intercalate "\n" (todos.map (fun todo => "# - " ++ todo))
  if task_type = "class" then
    "# Generated Python class for: " ++ request ++ "\n" ++ todo_text ++
      "\n\nclass GeneratedClass:\n    def __init__(self):\n        \"\"\"Initialize the class\"\"\"\n        pass\n    \n    def main_method(self):\n        \"\"\"Main method implementation\"\"\"\n        pass\n\nif __name__ == \x27__main__\x27:\n    obj = GeneratedClass()\n    obj.main_method()\n"
  else if task_type = "api" then
    "# Generated Python API for: " ++ request ++ "\n" ++ todo_text ++
      "\n\nfrom flask import Flask, request, jsonify\n\napp = Flask(__name__)\n\n@app.route(\x27/api/endpoint\x27, methods=[\x27GET\x27, \x27POST\x27])\ndef api_endpoint():\n    \"\"\"API endpoint implementation\"\"\"\n    return jsonify(\x7b\"message\": \"API response\"\x7d)\n\nif __name__ == \x27__main__\x27:\n    app.run(debug=True)\n"
  else if pyIn "hello world" (lower request) || pyIn "print hello" (lower request) then
    "# Generated Python function for: " ++ request ++ "\n" ++ todo_text ++
      "\n\ndef print_hello_world():\n    \"\"\"Function to print hello world\"\"\"\n    print(\"Hello, World!\")\n\ndef main():\n    \"\"\"Main function to run the hello world function\"\"\"\n    print_hello_world()\n\nif __name__ == \x27__main__\x27:\n    main()\n"
  else if pyIn "function" (lower request) then
    "# Generated Python function for: " ++ request ++ "\n" ++ todo_text ++
      "\n\ndef main():\n    \"\"\"Main function implementation\"\"\"\n    # Add your code here\n    pass\n\nif __name__ == \x27__main__\x27:\n    main()\n"
  else
    "# Generated Python code for: " ++ request ++ "\n" ++ todo_text ++
      "\n\ndef main():\n    \"\"\"Main function implementation\"\"\"\n    # Add your code here\n    pass\n\nif __name__ == \x27__main__\x27:\n    main()\n"

/-- `_generate_javascript_code`. -/
def generate_javascript_code (request : String) (todos : List String) (task_type : String) :
    String :=
  let todo_text := String.intercalate "\n" (todos.map (fun todo => "// - " ++ todo))
  if task_type = "class" then
    "// Generated JavaScript class for: " ++ request ++ "\n" ++ todo_text ++
      "\n\nclass GeneratedClass \x7b\n    constructor() \x7b\n        // Constructor implementation\n    \x7d\n    \n    mainMethod() \x7b\n        // Main method implementation\n    \x7d\n\x7d\n\n// Usage\nconst obj = new GeneratedClass();\nobj.mainMethod();\n"
  else if task_type = "api" then
    "// Generated JavaScript API for: " ++ request ++ "\n" ++ todo_text ++
      "\n\nconst express = require(\x27express\x27);\nconst app = express();\n\napp.get(\x27/api/endpoint\x27, (req, res) => \x7b\n    res.json(\x7b message: \x27API response\x27 \x7d);\n\x7d);\n\napp.listen(3000, () => \x7b\n    console.log(\x27Server running on port 3000\x27);\n\x7d);\n"
  else if pyIn "hello world" (lower request) || pyIn "print hello" (lower request) then
    "// Generated JavaScript function for: " ++ request ++ "\n" ++ todo_text ++
      "\n\nfunction printHelloWorld() \x7b\n    console.log(\"Hello, World!\");\n\x7d\n\nfunction main() \x7b\n    printHelloWorld();\n\x7d\n\nmain();\n"
  else if pyIn "function" (lower request) then
    "// Generated JavaScript function for: " ++ request ++ "\n" ++ todo_text ++
      "\n\nfunction main() \x7b\n    // Main function implementation\n\x7d\n\nmain();\n"
  else
    "// Generated JavaScript code for: " ++ request ++ "\n" ++ todo_text ++
      "\n\nfunction main() \x7b\n    // Main function implementation\n\x7d\n\nmain();\n"

/-- `_generate_java_code`. -/
def generate_java_code (request : String) (todos : List String) (_task_type : String) :
    String :=
  let todo_text := String.intercalate "\n" (todos.map (fun todo => "    // - " ++ todo))
  if pyIn "hello world" (lower request) || pyIn "print hello" (lower request) then
    "// Generated Java code for: " ++ request ++ "\n" ++ todo_text ++
      "\n\npublic class HelloWorld \x7b\n    public static void printHelloWorld() \x7b\n        System.out.println(\"Hello, World!\");\n    \x7d\n\n    public static void main(String[] args) \x7b\n        printHelloWorld();\n    \x7d\n\x7d\n"
  else if pyIn "function" (lower request) then
    "// Generated Java code for: " ++ request ++ "\n" ++ todo_text ++
      "\n\npublic class Main \x7b\n    public static void main(String[] args) \x7b\n        // Main method implementation\n    \x7d\n\x7d\n"
  else
    "// Generated Java code for: " ++ request ++ "\n" ++ todo_text ++
      "\n\npublic class GeneratedClass \x7b\n    public static void main(String[] args) \x7b\n        // Main method implementation\n    \x7d\n\x7d\n"

/-- `_generate_cpp_code`. -/
def generate_cpp_code (request : String) (todos : List String) (_task_type : String) :
    String :=
  let todo_text := String.intercalate "\n" (todos.map (fun todo => "    // - " ++ todo))
  if pyIn "hello world" (lower request) || pyIn "print hello" (lower request) then
    "// Generated C++ code for: " ++ request ++ "\n" ++ todo_text ++
      "\n\n#include <iostream>\n\nvoid printHelloWorld() \x7b\n    std::cout << \"Hello, World!\" << std::endl;\n\x7d\n\nint main() \x7b\n    printHelloWorld();\n    return 0;\n\x7d\n"
  else if pyIn "function" (lower request) then
    "// Generated C++ code for: " ++ request ++ "\n" ++ todo_text ++
      "\n\n#include <iostream>\n\nint main() \x7b\n    // Main function implementation\n    return 0;\n\x7d\n"
  else
    "// Generated C++ code for: " ++ request ++ "\n" ++ todo_text ++
      "\n\n#include <iostream>\n\nint main() \x7b\n    // Main function implementation\n    return 0;\n\x7d\n"

/-- `_generate_html_code`. -/
def generate_html_code (request : String) (todos : List String) (_task_type : String) :
    String :=
  let todo_text := String.intercalate "\n" (todos.map (fun todo => "    <!-- - " ++ todo ++ " -->"))
  "<!DOCTYPE html>\n<html lang=\"en\">\n<head>\n    <meta charset=\"UTF-8\">\n    <meta name=\"viewport\" content=\"width=device-width, initial-scale=1.0\">\n    <title>Generated Page</title>\n</head>\n<body>\n" ++
    todo_text ++
    "\n    <h1>Generated HTML for: " ++ request ++
    "</h1>\n    <script>\n        // JavaScript implementation\n    </script>\n</body>\n</html>\n"

/-- `_generate_sql_code`. -/
def generate_sql_code (request : String) (todos : List String) (_task_type : String) :
    String :=
  let todo_text := String.intercalate "\n" (todos.map (fun todo => "-- - " ++ todo))
  "-- Generated SQL for: " ++ request ++ "\n" ++ todo_text ++
    "\n\n-- Main SQL implementation\nSELECT * FROM table_name WHERE condition = \x27value\x27;\n"

/-- `_generate_bash_code`. -/
def generate_bash_code (request : String) (todos : List String) (_task_type : String) :
    String :=
  let todo_text := String.intercalate "\n" (todos.map (fun todo => "# - " ++ todo))
  "#!/bin/bash\n# Generated Bash script for: " ++ request ++ "\n" ++ todo_text ++
    "\n\n# Main script implementation\necho \"Script executed successfully\"\n"

/-- `_generate_universal_code` dispatch from `langgraph_pipeline.py` (the
`try/except` wrapper is dead in the pure embedding: no branch raises). -/
def generate_universal_code (request : String) (todos : List String)
    (language task_type : String) : String :=
  if language = "python" then generate_python_code request todos task_type
  else if language = "javascript" then generate_javascript_code request todos task_type
  else if language = "java" then generate_java_code request todos task_type
  else if language = "c++" || language = "cpp" then generate_cpp_code request todos task_type
  else if language = "html" then generate_html_code request todos task_type
  else if language = "sql" then generate_sql_code request todos task_type
  else if language = "bash" then generate_bash_code request todos task_type
  else generate_python_code request todos task_type

/-! ## `_generate_smart_filename` and the save path -/

/-- Mirrors Python `word.strip(".,!?")`. -/
def strip_filename_chars (w : String) : String :=
  let punct : List Char := [Char.ofNat 46, Char.ofNat 44, Char.ofNat 33, Char.ofNat 63]
  String.mk (((w.data.dropWhile punct.contains).reverse.dropWhile punct.contains).reverse)

/-- The explicit-filename scan of `_generate_smart_filename`: first word
following a word spelled "filename"/"file"/"name" whose stripped form is
non-empty. -/
def find_explicit_filename : List String → Option String
  | w1 :: w2 :: rest =>
    if ["filename", "file", "name"].contains (lower w1) then
      let filename := strip_filename_chars w2
      if filename ≠ "" then some filename
      else find_explicit_filename (w2 :: rest)
    else find_explicit_filename (w2 :: rest)
  | _ => none

/-- The default-by-language tail of `_generate_smart_filename`. -/
def smart_filename_by_language (language : String) : String :=
  if language = "python" then "main"
  else if language = "javascript" then "main"
  else if language = "java" then "Main"
  else if language = "cpp" then "main"
  else if language = "go" then "main"
  else if language = "rust" then "main"
  else if language = "php" then "index"
  else if language = "ruby" then "main"
  else if language = "swift" then "main"
  else if language = "kotlin" then "Main"
  else if language = "html" then "index"
  else if language = "css" then "styles"
  else if language = "sql" then "database"
  else if language = "bash" then "script"
  else if language = "powershell" then "script"
  else if language = "yaml" then "config"
  else if language = "json" then "data"
  else if language = "xml" then "data"
  else "main"

/-- `_generate_smart_filename` from `langgraph_pipeline.py`. -/
def generate_smart_filename (request language : String) : String :=
  let request_lower := lower request
  let explicit :=
    if pyIn "filename" request_lower || pyIn "file name" request_lower then
      find_explicit_filename (pyWords request)
    else none
  match explicit with
  | some filename => filename
  | none =>
    if pyIn "hello world" request_lower || pyIn "print hello" request_lower then "hello_world"
    else if pyIn "function" request_lower then "main_function"
    else if pyIn "class" request_lower then "main_class"
    else if pyIn "api" request_lower then "api_server"
    else if pyIn "database" request_lower then "database_model"
    else if pyIn "test" request_lower then "test_file"
    else if pyIn "script" request_lower then "script"
    else if pyIn "web" request_lower || pyIn "html" request_lower then "index"
    else if pyIn "css" request_lower then "styles"
    else if pyIn "javascript" request_lower || pyIn "js" request_lower then "main"
    else if pyIn "java" request_lower then "Main"
    else if pyIn "c++" request_lower || pyIn "cpp" request_lower then "main"
    else if pyIn "go" request_lower then "main"
    else if pyIn "rust" request_lower then "main"
    else if pyIn "php" request_lower then "index"
    else if pyIn "ruby" request_lower then "main"
    else if pyIn "swift" request_lower then "main"
    else if pyIn "kotlin" request_lower then "Main"
    else if pyIn "sql" request_lower then "database_schema"
    else if pyIn "bash" request_lower || pyIn "shell" request_lower then "script"
    else if pyIn "powershell" request_lower then "script"
    else if pyIn "yaml" request_lower || pyIn "yml" request_lower then "config"
    else if pyIn "json" request_lower then "data"
    else if pyIn "xml" request_lower then "data"
    else smart_filename_by_language language

/-- The file path built in `_generate_and_save_code`:
`f"{smart_filename}.{file_extension}"`. -/
def generate_and_save_code_path (transcribed_text language : String) : String :=
  generate_smart_filename transcribed_text language ++ "." ++ get_file_extension language

/-- The generate-and-persist core of `_generate_and_save_code`: the state
update and the file write.  (The trailing interactive continuation — speak
result, capture the next instruction, possibly re-enter the discussion
loop — is blocking voice I/O outside this leaf action.) -/
def generate_and_save_code (state : VoiceCodingState) (_current_todo : String)
    (transcribed_text : String) (todos : List String) (current_todo_index : Nat)
    (language task_type : String) : VoiceCodingState × List Effect :=
  let generated_code := generate_universal_code transcribed_text todos language task_type
  let code_file_path := generate_and_save_code_path transcribed_text language
  ({ state with
      generated_code := generated_code
      code_file_path := code_file_path
      iteration_count := state.iteration_count + 1
      current_step := "code_generation"
      current_todo_index := current_todo_index + 1 },
   [Effect.write code_file_path generated_code])

/-! ## Intent classification (`intent_agent.py`)

The GPT-4 HTTP call and `json.loads` are external capabilities: the
embedding receives the parse outcome directly — `none` models a
`json.JSONDecodeError` (unparseable model output), `some obj` the parsed
JSON object as an ordered key/value list. -/

/-- Python values appearing in intent-classification dictionaries. -/
inductive PyVal where
  | str (s : String)
  | num (q : ℚ)
  | dict (fields : List (String × PyVal))

/-- `required_fields` of `IntentAgent._classify_with_gpt4`. -/
def required_fields : List String := ["intent", "confidence", "action", "message"]

/-- The fallback classification returned by the `except` branch of
`IntentAgent._classify_with_gpt4`. -/
def gpt4_fallback_classification : List (String × PyVal) :=
  [("intent", PyVal.str "discussion"), ("confidence", PyVal.num ((3 : ℚ) / 10)),
   ("action", PyVal.str "discuss"), ("extracted_info", PyVal.dict []),
   ("message", PyVal.str "Fallback classification due to parsing error")]

/-- The `try` body of `IntentAgent._classify_with_gpt4`: parse, validate the
required fields (raising `ValueError` on the first missing one), default
`extracted_info`. -/
def classify_with_gpt4_body (parsed : Option (List (String × PyVal))) :
    Except String (List (String × PyVal)) :=
  match parsed with
  | none => Except.error "json.JSONDecodeError"
  | some classification =>
    match required_fields.find? (fun f => !(classification.any (fun kv => kv.1 = f))) with
    | some f => Except.error ("Missing required field: " ++ f)
    | none =>
      if classification.any (fun kv => kv.1 = "extracted_info") then
        Except.ok classification
      else
        Except.ok (classification ++ [("extracted_info", PyVal.dict [])])

/-- `IntentAgent._classify_with_gpt4`: the body with its catch-all
`except` returning the default classification. -/
def classify_with_gpt4 (parsed : Option (List (String × PyVal))) :
    List (String × PyVal) :=
  match classify_with_gpt4_body parsed with
  | Except.ok classification => classification
  | Except.error _ => gpt4_fallback_classification

/-- `IntentAgent._is_exit_intent`. -/
def is_exit_intent (text : String) : Bool :=
  anyIn ["thank you pair programming", "thanks pair programming",
         "thank you pair programmer", "goodbye pair programming",
         "exit pair programming", "stop pair programming"] (pyStrip (lower text))

/-- `IntentAgent.run`: exit-phrase check, then GPT-4 classification.  Its
own `except` branch (returning a discussion-mode default) is unreachable in
the embedding because `classify_with_gpt4` is already total. -/
def intent_agent_run (input_data : String)
    (parsed : Option (List (String × PyVal))) : List (String × PyVal) :=
  if is_exit_intent input_data then
    [("intent", PyVal.str "exit"), ("confidence", PyVal.num 1),
     ("action", PyVal.str "end_session"),
     ("message", PyVal.str "Goodbye session detected")]
  else
    classify_with_gpt4 parsed

/-! ## Voice capture (`stt_agent.py`, `auto_record_speech`)

The sound-device callbacks, VAD and the Whisper HTTP call are external
capabilities; each blocking sub-call is an explicit `Except`-valued outcome
(`Except.error` models a raised exception). -/

/-- `self.sample_rate` of `STTAgent`. -/
def sample_rate : Nat := 16000

/-- `self.sample_rate * self.min_speech_duration` = `16000 * 0.5` samples. -/
def min_speech_samples : Nat := 8000

/-- Outcomes of the external calls made during one `auto_record_speech`
execution. -/
structure AutoRecordEnv where
  /-- `_wait_for_speech_start(timeout=60)`: `ok false` = 60 s timeout. -/
  speech_start : Except String Bool
  /-- length of the array returned by `_record_until_silence`. -/
  recorded_samples : Except String Nat
  /-- the Whisper transcription call inside `_transcribe_audio_data`. -/
  whisper : Except String String

/-- `_transcribe_audio_data`: returns `transcript.text.strip()`, or `""`
from its own `except` branch when the transcription call raises. -/
def transcribe_audio_data (whisper : Except String String) : String :=
  match whisper with
  | Except.ok text => pyStrip text
  | Except.error _ => ""

/-- The `try` body of `auto_record_speech`; a raised exception in a
sub-call propagates as `Except.error`. -/
def auto_record_speech_body (env : AutoRecordEnv) : Except String String :=
  match env.speech_start with
  | Except.error e => Except.error e
  | Except.ok speech_detected =>
    if !speech_detected then Except.ok ""
    else
      match env.recorded_samples with
      | Except.error e => Except.error e
      | Except.ok n =>
        if n < min_speech_samples then Except.ok ""
        else Except.ok (transcribe_audio_data env.whisper)

/-- `auto_record_speech`: the body with its catch-all `except` returning
`""`. -/
def auto_record_speech (env : AutoRecordEnv) : String :=
  match auto_record_speech_body env with
  | Except.ok text => text
  | Except.error _ => ""

/-- The three failure cases named by the specification for
`auto_record_speech`: no speech within the 60-second wait, a recording
shorter than the 0.5-second minimum, or an internal exception in any of
the external calls. -/
def auto_record_failure (env : AutoRecordEnv) : Bool :=
  match env.speech_start with
  | Except.error _ => true
  | Except.ok false => true
  | Except.ok true =>
    match env.recorded_samples with
    | Except.error _ => true
    | Except.ok n =>
      if n < min_speech_samples then true
      else
        match env.whisper with
        | Except.error _ => true
        | Except.ok _ => false

/-! ## Shared string lemmas -/

theorem str_data_append (s t : String) : (s ++ t).data = s.data ++ t.data := rfl

theorem str_length_append (s t : String) : (s ++ t).length = s.length + t.length :=
  List.length_append s.data t.data

theorem str_pos_length_append (s t : String) (h : 0 < s.length) :
    0 < (s ++ t).length := by
  rw [str_length_append]; omega

/-! ## C6: todo decomposition is never empty -/

/-- C6: for every input string, including the empty string, todo
decomposition returns a list containing at least one task. -/
theorem generate_todos_never_empty (request : String) :
    1 ≤ (generate_todos_from_request request).length := by
  simp only [generate_todos_from_request, List.singleton_append, List.length_cons]
  omega

/-! ## C3: the iteration bound -/

/-- C3: when `iteration_count ≥ max_iterations` the code-iteration step
performs no iteration (no file write, no increment, code unchanged) and
the engine then routes unconditionally to response generation. -/
theorem code_iteration_respects_bound (s : VoiceCodingState)
    (h : s.max_iterations ≤ s.iteration_count) :
    (code_iteration_node s).1.iteration_count = s.iteration_count ∧
    (code_iteration_node s).1.generated_code = s.generated_code ∧
    (code_iteration_node s).2 = [] ∧
    should_continue_after_code_iteration (code_iteration_node s).1 =
      "response_generation" := by
  have hge : s.iteration_count ≥ s.max_iterations := h
  simp only [code_iteration_node, if_pos hge, should_continue_after_code_iteration]
  refine ⟨trivial, trivial, trivial, ?_⟩
  rw [if_neg]
  omega

/-- Witness for C3 at a concrete state with the bound reached. -/
theorem code_iteration_respects_bound_witness :
    (code_iteration_node { initial_state with iteration_count := 3 }).2 = [] ∧
    should_continue_after_code_iteration
      (code_iteration_node { initial_state with iteration_count := 3 }).1 =
      "response_generation" :=
  ⟨(code_iteration_respects_bound _ (by decide)).2.2.1,
   (code_iteration_respects_bound _ (by decide)).2.2.2⟩

/-! ## C5: silence at confirmation defaults to affirm -/

/-- C5: when no response is captured during the confirmation step, the
system defaults to affirm — `user_confirmed` becomes true,
`confirmation_status` becomes "confirmed", and the flow routes to intent
classification. -/
theorem confirmation_silence_defaults_affirm (s : VoiceCodingState)
    (h : s.transcribed_text ≠ "") :
    (confirmation_node s "").1.user_confirmed = true ∧
    (confirmation_node s "").1.confirmation_status = "confirmed" ∧
    should_continue_after_confirmation_simple (confirmation_node s "").1 =
      "intent_classification" := by
  simp [confirmation_node, should_continue_after_confirmation_simple, h]

/-- Witness for C5 at a concrete transcribed request. -/
theorem confirmation_silence_defaults_affirm_witness :
    (confirmation_node { initial_state with transcribed_text := "write a function" }
      "").1.user_confirmed = true ∧
    (confirmation_node { initial_state with transcribed_text := "write a function" }
      "").1.confirmation_status = "confirmed" ∧
    should_continue_after_confirmation_simple
      (confirmation_node { initial_state with transcribed_text := "write a function" }
        "").1 = "intent_classification" :=
  confirmation_silence_defaults_affirm _ (by decide)

/-! ## C2: confirmation keyword classification -/

/-- C2 counterexample: a captured response matching neither keyword set
("banana") does not take any ambiguous re-ask-then-affirm path — the node
immediately classifies it as re-record and routes back to voice input. -/
theorem confirmation_unrelated_text_rerecords :
    (confirmation_node { initial_state with transcribed_text := "write a function" }
      "banana").1.confirmation_status = "re_record" ∧
    (confirmation_node { initial_state with transcribed_text := "write a function" }
      "banana").1.user_confirmed = false ∧
    should_continue_after_confirmation_simple
      (confirmation_node { initial_state with transcribed_text := "write a function" }
        "banana").1 = "voice_input" ∧
    "re_record" ≠ "confirmed" := by
  decide

/-- C2 (amended): a captured response containing an affirmative keyword
(the code's set includes "yes", "correct", "yeah") is classified affirm and
routes to intent classification; every other captured response — including
"no", "wrong" and unrelated text — is classified re-record and routes back
to voice input; there is no separate ambiguous re-ask path. -/
theorem confirmation_keyword_classification (s : VoiceCodingState) (r : String)
    (ht : s.transcribed_text ≠ "") (hr : r ≠ "") :
    ((confirmation_node s r).1.confirmation_status =
      if anyIn confirmation_affirm_words (pyStrip (lower r)) then "confirmed"
      else "re_record") ∧
    (should_continue_after_confirmation_simple (confirmation_node s r).1 =
      if anyIn confirmation_affirm_words (pyStrip (lower r)) then "intent_classification"
      else "voice_input") ∧
    anyIn confirmation_affirm_words (pyStrip (lower "yes")) = true ∧
    anyIn confirmation_affirm_words (pyStrip (lower "correct")) = true ∧
    anyIn confirmation_affirm_words (pyStrip (lower "yeah")) = true ∧
    anyIn confirmation_affirm_words (pyStrip (lower "no")) = false ∧
    anyIn confirmation_affirm_words (pyStrip (lower "wrong")) = false := by
  refine ⟨?_, ?_, by decide, by decide, by decide, by decide, by decide⟩ <;>
    cases hk : anyIn confirmation_affirm_words (pyStrip (lower r)) <;>
      simp [confirmation_node, should_continue_after_confirmation_simple, ht, hr, hk]

/-- Witness for C2 (amended) on the concrete replies "yes" and "banana". -/
theorem confirmation_keyword_classification_witness :
    (confirmation_node { initial_state with transcribed_text := "write a function" }
      "yes").1.confirmation_status = "confirmed" ∧
    (confirmation_node { initial_state with transcribed_text := "write a function" }
      "banana").1.confirmation_status = "re_record" := by
  have h1 := (confirmation_keyword_classification
    { initial_state with transcribed_text := "write a function" } "yes"
    (by decide) (by decide)).1
  have h2 := (confirmation_keyword_classification
    { initial_state with transcribed_text := "write a function" } "banana"
    (by decide) (by decide)).1
  rw [h1, h2]
  refine ⟨by decide, by decide⟩

/-! ## C1: the respond-and-offer-more step -/

/-- C1: evaluation of `_response_generation_node` at its three reply kinds.
A "yes" reply resets the task fields, clears the transcription and routes
to intent classification, and an explicit "no" reply ends the graph run
(the outer loop then restarts at wake-word detection); but on silence the
node sets `pipeline_status` to "active", so the router sends the flow to
intent classification instead of returning to the wake-word wait that the
node's own log lines announce. -/
theorem response_generation_silence_misroutes :
    (should_continue_after_response_generation
      (response_generation_node { initial_state with user_intent := "coding" }
        "yes").1 = "intent_classification" ∧
     (response_generation_node { initial_state with user_intent := "coding" }
        "yes").1.transcribed_text = "" ∧
     (response_generation_node { initial_state with user_intent := "coding" }
        "yes").1.generated_todos = []) ∧
    (should_continue_after_response_generation
      (response_generation_node { initial_state with user_intent := "coding" }
        "no").1 = END ∧
     (response_generation_node { initial_state with user_intent := "coding" }
        "no").1.pipeline_status = "completed") ∧
    ((response_generation_node { initial_state with user_intent := "coding" }
        "").1.pipeline_status = "active" ∧
     (response_generation_node { initial_state with user_intent := "coding" }
        "").1.current_step = "wake_word_detection" ∧
     should_continue_after_response_generation
      (response_generation_node { initial_state with user_intent := "coding" }
        "").1 = "intent_classification" ∧
     "intent_classification" ≠ END) := by
  decide

/-! ## C4: review failure outcomes -/

/-- C4: evaluation of the review path at the rate-limited CLI outcome.  The
agent reports status "rate_limited", but `_code_review_node` sets the
pipeline status to "error" (not "rate_limited") and speaks the literal
string "Rate limit exceeded error" rather than the designated
`CODERABBIT_RATE_LIMIT_MESSAGE`; the timeout and generic-error outcomes
produce exactly the same node state and spoken output, so the three
non-success outcomes are not mapped to distinct messages or statuses. -/
theorem code_review_collapses_failure_outcomes :
    (review_current_directory (SubprocessOutcome.finished 1 "" "Rate limit exceeded")
      id).status = "rate_limited" ∧
    (code_review_node initial_state
      (review_current_directory (SubprocessOutcome.finished 1 "" "Rate limit exceeded")
        id)).1.pipeline_status = "error" ∧
    (code_review_node initial_state
      (review_current_directory (SubprocessOutcome.finished 1 "" "Rate limit exceeded")
        id)).2 =
      [Effect.speak CODERABBIT_START_MESSAGE, Effect.speak "Rate limit exceeded error"] ∧
    Effect.speak CODERABBIT_RATE_LIMIT_MESSAGE ∉
      (code_review_node initial_state
        (review_current_directory (SubprocessOutcome.finished 1 "" "Rate limit exceeded")
          id)).2 ∧
    code_review_node initial_state
        (review_current_directory SubprocessOutcome.timeoutExpired id) =
      code_review_node initial_state
        (review_current_directory (SubprocessOutcome.finished 1 "" "Rate limit exceeded")
          id) ∧
    code_review_node initial_state
        (review_current_directory (SubprocessOutcome.raised "boom") id) =
      code_review_node initial_state
        (review_current_directory (SubprocessOutcome.finished 1 "" "Rate limit exceeded")
          id) := by
  decide

/-! ## C9: idempotent confirmation prompt -/

theorem confirmation_msg_ne_great (t : String) :
    confirmation_msg t ≠ "Great! Um, let me get started on that for you." := by
  intro h
  have h2 := congrArg String.data h
  simp only [confirmation_msg, str_data_append] at h2
  simp at h2

theorem confirmation_msg_ne_sorry (t : String) :
    confirmation_msg t ≠
      "Oh, um, I\x27m sorry about that. Could you please say it again?" := by
  intro h
  have h2 := congrArg String.data h
  simp only [confirmation_msg, str_data_append] at h2
  simp at h2

theorem confirmation_msg_ne_assume (t : String) :
    confirmation_msg t ≠ "Um, I\x27ll assume that\x27s correct and continue." := by
  intro h
  have h2 := congrArg String.data h
  simp only [confirmation_msg, str_data_append] at h2
  simp at h2

/-- The spoken output of one confirmation-node run: the prompt exactly when
the spoken-flag was clear, followed by the classification reply. -/
theorem confirmation_node_effects (s : VoiceCodingState) (r : String)
    (ht : s.transcribed_text ≠ "") :
    (confirmation_node s r).2 =
      (if s.confirmation_spoken then ([] : List Effect)
       else [Effect.speak (confirmation_msg s.transcribed_text)]) ++
      [Effect.speak (if r ≠ "" then
          (if anyIn confirmation_affirm_words (pyStrip (lower r)) then
            "Great! Um, let me get started on that for you."
          else "Oh, um, I\x27m sorry about that. Could you please say it again?")
        else "Um, I\x27ll assume that\x27s correct and continue.")] := by
  by_cases hs : s.confirmation_spoken <;>
    by_cases hr : r ≠ "" <;>
      cases hk : anyIn confirmation_affirm_words (pyStrip (lower r)) <;>
        simp [confirmation_node, ht, hs, hr, hk]

/-- State fields of one confirmation-node run used by the idempotence
argument. -/
theorem confirmation_node_state_fields (s : VoiceCodingState) (r : String)
    (ht : s.transcribed_text ≠ "") :
    (confirmation_node s r).1.confirmation_spoken = true ∧
    (confirmation_node s r).1.transcribed_text = s.transcribed_text := by
  by_cases hr : r ≠ "" <;>
    cases hk : anyIn confirmation_affirm_words (pyStrip (lower r)) <;>
      simp [confirmation_node, ht, hr, hk]

/-- C9 counterexample: the spoken-flag is not cleared only by the
voice-input step — the respond-and-offer-more step clears it as well. -/
theorem response_generation_clears_spoken_flag :
    ({ initial_state with confirmation_spoken := true } :
      VoiceCodingState).confirmation_spoken = true ∧
    (response_generation_node { initial_state with confirmation_spoken := true }
      "yes").1.confirmation_spoken = false := by
  decide

/-- C9 (amended): the confirmation prompt is spoken exactly when the
spoken-flag is clear, the flag is set by the node, re-entering the
confirmation state without an intervening voice-input step never re-speaks
the prompt, and the voice-input step clears the flag (as do the session
resets of the respond-and-offer-more step). -/
theorem confirmation_prompt_idempotent (s : VoiceCodingState) (r1 r2 : String)
    (ht : s.transcribed_text ≠ "") :
    (confirmation_node s r1).1.confirmation_spoken = true ∧
    (Effect.speak (confirmation_msg s.transcribed_text) ∈ (confirmation_node s r1).2 ↔
      s.confirmation_spoken = false) ∧
    Effect.speak (confirmation_msg s.transcribed_text) ∉
      (confirmation_node (confirmation_node s r1).1 r2).2 ∧
    (∀ v, (voice_input_node s v).confirmation_spoken = false) := by
  obtain ⟨hspoken, htext⟩ := confirmation_node_state_fields s r1 ht
  have ht2 : (confirmation_node s r1).1.transcribed_text ≠ "" := by
    rw [htext]; exact ht
  refine ⟨hspoken, ?_, ?_, ?_⟩
  · rw [confirmation_node_effects s r1 ht]
    by_cases hs : s.confirmation_spoken
    · simp only [hs, if_true, List.nil_append, List.mem_singleton]
      constructor
      · intro hEq
        exfalso
        split_ifs at hEq <;>
          simp only [Effect.speak.injEq] at hEq <;>
          first
            | exact confirmation_msg_ne_great _ hEq
            | exact confirmation_msg_ne_sorry _ hEq
            | exact confirmation_msg_ne_assume _ hEq
      · intro hFalse
        exact absurd hFalse (by decide)
    · simp [hs]
  · rw [confirmation_node_effects _ r2 ht2, htext, hspoken]
    simp only [if_true, List.nil_append, List.mem_singleton]
    intro hEq
    split_ifs at hEq <;>
      simp only [Effect.speak.injEq] at hEq <;>
      first
        | exact confirmation_msg_ne_great _ hEq
        | exact confirmation_msg_ne_sorry _ hEq
        | exact confirmation_msg_ne_assume _ hEq
  · intro v
    by_cases hv : v ≠ "" <;> simp [voice_input_node, hv]

/-- Witness for C9 (amended) at a concrete state and replies. -/
theorem confirmation_prompt_idempotent_witness :
    (confirmation_node { initial_state with transcribed_text := "write a function" }
      "yes").1.confirmation_spoken = true ∧
    Effect.speak (confirmation_msg "write a function") ∉
      (confirmation_node
        (confirmation_node { initial_state with transcribed_text := "write a function" }
          "yes").1 "yes").2 :=
  ⟨(confirmation_prompt_idempotent _ "yes" "yes" (by decide)).1,
   (confirmation_prompt_idempotent _ "yes" "yes" (by decide)).2.2.1⟩

/-! ## C10: totality of `auto_record_speech` -/

/-- C10 counterexample: a run in which speech starts, the recording is
long enough and the transcription call succeeds — i.e. none of the three
failure cases — still returns the empty string when the transcription
service yields empty text. -/
theorem auto_record_empty_without_failure :
    auto_record_speech
      { speech_start := Except.ok true, recorded_samples := Except.ok 16000,
        whisper := Except.ok "" } = "" ∧
    auto_record_failure
      { speech_start := Except.ok true, recorded_samples := Except.ok 16000,
        whisper := Except.ok "" } = false := by
  decide

/-- C10 (amended): `auto_record_speech` always returns a string (every
raised internal exception is caught), and it returns the empty string
exactly when one of the three failure cases occurs — no speech within the
60-second wait, a recording shorter than the 0.5-second minimum, or an
internal exception — or when the transcription call succeeds but yields
text that strips to empty. -/
theorem auto_record_empty_iff (env : AutoRecordEnv) :
    auto_record_speech env = "" ↔
      (auto_record_failure env = true ∨
        ∃ t, env.whisper = Except.ok t ∧ pyStrip t = "") := by
  obtain ⟨ss, rs, w⟩ := env
  rcases ss with e | b
  · simp [auto_record_speech, auto_record_speech_body, auto_record_failure]
  · rcases b with _ | _
    · simp [auto_record_speech, auto_record_speech_body, auto_record_failure]
    · rcases rs with e | n
      · simp [auto_record_speech, auto_record_speech_body, auto_record_failure]
      · by_cases hn : n < min_speech_samples
        · simp [auto_record_speech, auto_record_speech_body, auto_record_failure, hn]
        · rcases w with e | t
          · simp [auto_record_speech, auto_record_speech_body, auto_record_failure,
              transcribe_audio_data, hn]
          · simp [auto_record_speech, auto_record_speech_body, auto_record_failure,
              transcribe_audio_data, hn]

/-! ## C7: code-generation dispatch and the extension table -/

theorem generate_python_code_pos (r : String) (ts : List String) (tt : String) :
    0 < (generate_python_code r ts tt).length := by
  unfold generate_python_code
  repeat' split
  all_goals repeat apply str_pos_length_append
  all_goals decide

theorem generate_javascript_code_pos (r : String) (ts : List String) (tt : String) :
    0 < (generate_javascript_code r ts tt).length := by
  unfold generate_javascript_code
  repeat' split
  all_goals repeat apply str_pos_length_append
  all_goals decide

theorem generate_java_code_pos (r : String) (ts : List String) (tt : String) :
    0 < (generate_java_code r ts tt).length := by
  unfold generate_java_code
  repeat' split
  all_goals repeat apply str_pos_length_append
  all_goals decide

theorem generate_cpp_code_pos (r : String) (ts : List String) (tt : String) :
    0 < (generate_cpp_code r ts tt).length := by
  unfold generate_cpp_code
  repeat' split
  all_goals repeat apply str_pos_length_append
  all_goals decide

set_option maxRecDepth 4000 in
theorem generate_html_code_pos (r : String) (ts : List String) (tt : String) :
    0 < (generate_html_code r ts tt).length := by
  unfold generate_html_code
  repeat apply str_pos_length_append
  decide

theorem generate_sql_code_pos (r : String) (ts : List String) (tt : String) :
    0 < (generate_sql_code r ts tt).length := by
  unfold generate_sql_code
  repeat apply str_pos_length_append
  decide

theorem generate_bash_code_pos (r : String) (ts : List String) (tt : String) :
    0 < (generate_bash_code r ts tt).length := by
  unfold generate_bash_code
  repeat apply str_pos_length_append
  decide

/-- `List.lookup` misses every key absent from the key list. -/
theorem lookup_none_of_not_mem (l : List (String × String)) (a : String)
    (h : a ∉ l.map Prod.fst) : l.lookup a = none := by
  induction l with
  | nil => rfl
  | cons kv rest ih =>
    obtain ⟨k, v⟩ := kv
    simp only [List.map_cons, List.mem_cons, not_or] at h
    have hbeq : (a == k) = false := beq_eq_false_iff_ne.mpr h.1
    simp [List.lookup, hbeq, ih h.2]

/-- C7: for every language (the 22 table keys included), code generation
returns non-empty text; the saved file path is the smart filename joined by
a dot to the table extension (so its extension matches the table exactly,
e.g. javascript → "js", python → "py"); languages absent from the table
map to extension "txt". -/
theorem code_generation_dispatch (s : VoiceCodingState) (ct request : String)
    (todos : List String) (i : Nat) (language task_type : String) :
    0 < (generate_universal_code request todos language task_type).length ∧
    (generate_and_save_code s ct request todos i language task_type).1.code_file_path =
      generate_smart_filename request language ++ "." ++ get_file_extension language ∧
    (generate_and_save_code s ct request todos i language task_type).2 =
      [Effect.write
        (generate_smart_filename request language ++ "." ++ get_file_extension language)
        (generate_universal_code request todos language task_type)] ∧
    get_file_extension "javascript" = "js" ∧
    get_file_extension "python" = "py" ∧
    (language ∉ extensions.map Prod.fst → get_file_extension language = "txt") := by
  refine ⟨?_, rfl, rfl, by decide, by decide, ?_⟩
  · unfold generate_universal_code
    repeat' split
    · exact generate_python_code_pos ..
    · exact generate_javascript_code_pos ..
    · exact generate_java_code_pos ..
    · exact generate_cpp_code_pos ..
    · exact generate_html_code_pos ..
    · exact generate_sql_code_pos ..
    · exact generate_bash_code_pos ..
    · exact generate_python_code_pos ..
  · intro hmem
    unfold get_file_extension
    rw [lookup_none_of_not_mem extensions language hmem]
    rfl

/-- Witness for C7: the "txt" default at the concrete unsupported language
"elm", plus non-emptiness at "javascript". -/
theorem code_generation_dispatch_witness :
    get_file_extension "elm" = "txt" ∧
    0 < (generate_universal_code "build a site" [] "javascript" "function").length :=
  ⟨(code_generation_dispatch initial_state "" "build a site" [] 0 "elm"
      "function").2.2.2.2.2 (by decide),
   (code_generation_dispatch initial_state "" "build a site" [] 0 "javascript"
      "function").1⟩

/-! ## C8: intent-classification fallback -/

/-- C8: whenever the model output is unparseable (`none`) or any required
key is missing, the classifier returns the default low-confidence fallback
classification; the returned classification always carries every required
key; and every raised body error is caught (never propagated). -/
theorem intent_classification_fallback (parsed : Option (List (String × PyVal))) :
    (∀ e, classify_with_gpt4_body parsed = Except.error e →
       classify_with_gpt4 parsed = gpt4_fallback_classification) ∧
    (parsed = none → classify_with_gpt4 parsed = gpt4_fallback_classification) ∧
    (∀ obj f, parsed = some obj → f ∈ required_fields →
       obj.any (fun kv => kv.1 = f) = false →
       classify_with_gpt4 parsed = gpt4_fallback_classification) ∧
    required_fields.all
      (fun f => (classify_with_gpt4 parsed).any (fun kv => kv.1 = f)) = true := by
  refine ⟨?_, ?_, ?_, ?_⟩
  · intro e he
    unfold classify_with_gpt4
    rw [he]
  · intro hnone
    subst hnone
    rfl
  · intro obj f hobj hf hmiss
    subst hobj
    unfold classify_with_gpt4 classify_with_gpt4_body
    dsimp only
    cases hfind : required_fields.find? (fun g => !(obj.any (fun kv => kv.1 = g))) with
    | some g => rfl
    | none =>
      exfalso
      have hg := List.find?_eq_none.mp hfind f hf
      rw [hmiss] at hg
      exact hg rfl
  · cases parsed with
    | none => decide
    | some obj =>
      unfold classify_with_gpt4 classify_with_gpt4_body
      dsimp only
      cases hfind : required_fields.find? (fun g => !(obj.any (fun kv => kv.1 = g))) with
      | some g => rfl
      | none =>
        have hall : ∀ f ∈ required_fields, (obj.any (fun kv => kv.1 = f)) = true := by
          intro f hf
          have hg := List.find?_eq_none.mp hfind f hf
          simpa using hg
        by_cases hei : obj.any (fun kv => kv.1 = "extracted_info") = true
        · rw [if_pos hei, List.all_eq_true]
          intro f hf
          exact hall f hf
        · rw [if_neg hei, List.all_eq_true]
          intro f hf
          rw [List.any_append]
          simp [hall f hf]

/-- Witness for C8 at the unparseable outcome and at an object missing the
"intent" key. -/
theorem intent_classification_fallback_witness :
    classify_with_gpt4 none = gpt4_fallback_classification ∧
    classify_with_gpt4 (some [("confidence", PyVal.num 1)]) =
      gpt4_fallback_classification :=
  ⟨(intent_classification_fallback none).2.1 rfl,
   (intent_classification_fallback (some [("confidence", PyVal.num 1)])).2.2.1
     [("confidence", PyVal.num 1)] "intent" rfl (by decide) (by decide)⟩

end MyPeer
